import Mathlib

/-!
Verification development for the travelplanner repository.

The repository ships two presentation layers (a Next.js frontend and a
legacy plain-JS frontend) that call a conversational orchestration core
over HTTP.  The core itself (Itinerary Engine, Session State Manager,
Retrieval Router, Admin operations) is specified in the design document;
its definitions below are shallow embeddings of that contract.  The
client-side logic (catalog-id extraction from chat text and the
confirmation flow) is embedded directly from the frontend sources.
-/

namespace TravelPlanner

/-- Item kinds of the Catalog, discriminating flights, hotels and
activities. -/
inductive Kind where
  | flight
  | hotel
  | activity
deriving DecidableEq, Repr

/-- Modelled from the spec: a CatalogItem is discriminated by kind, has a
stable human-readable id (e.g. `FL001`) and an immutable price (for hotels
the price is the per-night price).  Prices are modelled as natural numbers
of currency units. -/
structure CatalogItem where
  id : String
  kind : Kind
  price : Nat
deriving DecidableEq, Repr

/-- Modelled from the spec: Preferences with all fields optional and
independently overwritable.  Dates are modelled as abstract day numbers. -/
structure Preferences where
  destination : Option String
  origin : Option String
  startDate : Option Nat
  endDate : Option Nat
  budget : Option Nat
  travelStyle : Option String
deriving DecidableEq, Repr

/-- Modelled from the spec: an Itinerary owns ordered-insertion lists of
flight/hotel/activity selections (catalog-id references) and a confirmed
flag. -/
structure Itinerary where
  flights : List String
  hotels : List String
  activities : List String
  confirmed : Bool
deriving DecidableEq, Repr

/-- Modelled from the spec: CustomerInfo with email required before
confirmation, name and phone optional. -/
structure CustomerInfo where
  email : Option String
  name : Option String
  phone : Option String
deriving DecidableEq, Repr

/-- One entry of the append-only chat history: role, content, timestamp. -/
structure ChatEntry where
  role : String
  content : String
  ts : Nat
deriving DecidableEq, Repr

/-- Modelled from the spec: the Session root aggregate.  Ids are opaque
and unique; they are modelled as natural numbers issued by the registry.
The confirmed flag is read from the owned Itinerary. -/
structure Session where
  id : Nat
  createdAt : Nat
  prefs : Preferences
  itin : Itinerary
  chatHistory : List ChatEntry
  customer : CustomerInfo
deriving DecidableEq, Repr

/-- Booking lifecycle status: confirmed, completed or cancelled.
Cancellation is a terminal Booking status, distinct from the Session's
confirmed flag. -/
inductive BookingStatus where
  | confirmed
  | completed
  | cancelled
deriving DecidableEq, Repr

/-- Modelled from the spec: a Booking is a denormalized snapshot of a
Session at confirmation time (preferences, itinerary, customer info, chat
summary) plus a mutable status.  The generated chat summary is modelled as
the chat history at confirmation time. -/
structure Booking where
  id : Nat
  sessionId : Nat
  status : BookingStatus
  customer : CustomerInfo
  prefs : Preferences
  itin : Itinerary
  total : Nat
  chatSummary : List ChatEntry
deriving DecidableEq, Repr

/-- The error taxonomy of the core. -/
inductive DomainError where
  | NotFound
  | AlreadyConfirmed
  | Duplicate
  | EmptyItinerary
  | MissingCustomerInfo
  | RetrievalUnavailable
deriving DecidableEq, Repr

/-- Modelled from the spec: nights for hotel pricing are derived from the
Preferences start/end dates when both are present (end minus start when
positive), with a documented default of 1 otherwise. -/
def nights (p : Preferences) : Nat :=
  match p.startDate, p.endDate with
  | some s, some e => if s < e then e - s else 1
  | _, _ => 1

/-- Resolve a catalog reference (kind and id) against the Catalog. -/
def resolve (cat : List CatalogItem) (k : Kind) (cid : String) : Option CatalogItem :=
  cat.find? (fun c => c.kind = k ∧ c.id = cid)

/-- The resolved price of a catalog reference, if it resolves. -/
def priceOf (cat : List CatalogItem) (k : Kind) (cid : String) : Option Nat :=
  (resolve cat k cid).map (fun c => c.price)

/-- Cost contribution of one selection: resolved price, multiplied by the
stay length in nights for hotels.  Unresolvable references contribute 0
(selections are references resolved at read time). -/
def itemCost (cat : List CatalogItem) (p : Preferences) (k : Kind) (cid : String) : Nat :=
  let base := (priceOf cat k cid).getD 0
  match k with
  | .hotel => base * nights p
  | _ => base

/-- Modelled from the spec: total_cost is a deterministic pure function,
the sum of flight prices, hotel price-per-night times nights, and activity
prices, recomputed from the current selections. -/
def totalCost (cat : List CatalogItem) (p : Preferences) (it : Itinerary) : Nat :=
  (it.flights.map (itemCost cat p .flight)).sum
    + (it.hotels.map (itemCost cat p .hotel)).sum
    + (it.activities.map (itemCost cat p .activity)).sum

/-- The id list of a given kind inside an itinerary. -/
def Itinerary.kindIds (it : Itinerary) : Kind → List String
  | .flight => it.flights
  | .hotel => it.hotels
  | .activity => it.activities

/-- Append a selection of the given kind (ordered insertion). -/
def Itinerary.insertId (it : Itinerary) (k : Kind) (cid : String) : Itinerary :=
  match k with
  | .flight => { it with flights := it.flights ++ [cid] }
  | .hotel => { it with hotels := it.hotels ++ [cid] }
  | .activity => { it with activities := it.activities ++ [cid] }

/-- Remove a selection of the given kind (no-op if absent). -/
def Itinerary.eraseId (it : Itinerary) (k : Kind) (cid : String) : Itinerary :=
  match k with
  | .flight => { it with flights := it.flights.filter (fun x => x != cid) }
  | .hotel => { it with hotels := it.hotels.filter (fun x => x != cid) }
  | .activity => { it with activities := it.activities.filter (fun x => x != cid) }

/-- Modelled from the spec: Itinerary Engine `add`.  A confirmed itinerary
is frozen, so the AlreadyConfirmed check comes first (the spec's testable
property states that once confirmed, any subsequent add fails with
AlreadyConfirmed); then the reference must resolve in the Catalog, must
not already be present, and is otherwise appended. -/
def addItem (cat : List CatalogItem) (s : Session) (k : Kind) (cid : String) :
    Except DomainError Session :=
  if s.itin.confirmed then .error .AlreadyConfirmed
  else if (resolve cat k cid).isNone then .error .NotFound
  else if cid ∈ s.itin.kindIds k then .error .Duplicate
  else .ok { s with itin := s.itin.insertId k cid }

/-- Modelled from the spec: Itinerary Engine `remove` — fails with
AlreadyConfirmed once confirmed, otherwise removes the selection (no-op
if absent). -/
def removeItem (s : Session) (k : Kind) (cid : String) : Except DomainError Session :=
  if s.itin.confirmed then .error .AlreadyConfirmed
  else .ok { s with itin := s.itin.eraseId k cid }

/-- Modelled from the spec: Itinerary Engine `confirm` — fails with
EmptyItinerary if no selections exist; fails with MissingCustomerInfo if
the customer email is absent; otherwise sets confirmed, generates the
Booking snapshot and returns it (the caller reads the Booking id from
it).  The checks are sequential in the spec's stated order. -/
def confirmSession (cat : List CatalogItem) (s : Session) (bid : Nat) :
    Except DomainError (Session × Booking) :=
  if s.itin.flights = [] ∧ s.itin.hotels = [] ∧ s.itin.activities = [] then
    .error .EmptyItinerary
  else if s.customer.email = none then .error .MissingCustomerInfo
  else
    let it := { s.itin with confirmed := true }
    .ok ({ s with itin := it },
      { id := bid, sessionId := s.id, status := .confirmed, customer := s.customer,
        prefs := s.prefs, itin := it, total := totalCost cat s.prefs s.itin,
        chatSummary := s.chatHistory })

/-- Last-write-wins merge of one optional preference field. -/
def updField (newVal old : Option α) : Option α :=
  match newVal with
  | some v => some v
  | none => old

/-- Modelled from the spec: Preferences merge — only the latest non-null
value of each field is retained (last-write-wins per field). -/
def mergePrefs (p delta : Preferences) : Preferences where
  destination := updField delta.destination p.destination
  origin := updField delta.origin p.origin
  startDate := updField delta.startDate p.startDate
  endDate := updField delta.endDate p.endDate
  budget := updField delta.budget p.budget
  travelStyle := updField delta.travelStyle p.travelStyle

/-- Modelled from the spec: `append_message` is append-only — it never
reorders or deletes history. -/
def appendMessage (s : Session) (role content : String) (ts : Nat) : Session :=
  { s with chatHistory := s.chatHistory ++ [{ role := role, content := content, ts := ts }] }

/-- The mutations a Session can undergo; per the spec all mutation passes
through the Session State Manager, so this is the complete operation
language on one session. -/
inductive SessionOp where
  | add (k : Kind) (cid : String)
  | remove (k : Kind) (cid : String)
  | confirm (bid : Nat)
  | setCustomer (email : String) (name phone : Option String)
  | refine (delta : Preferences)
  | say (role content : String) (ts : Nat)
deriving DecidableEq, Repr

/-- Apply one operation to a session; a domain error leaves the aggregate
unchanged (per the spec, the Orchestrator catches domain errors and the
state is not partially mutated). -/
def applySessionOp (cat : List CatalogItem) (s : Session) : SessionOp → Session
  | .add k cid =>
    match addItem cat s k cid with
    | .ok s' => s'
    | .error _ => s
  | .remove k cid =>
    match removeItem s k cid with
    | .ok s' => s'
    | .error _ => s
  | .confirm bid =>
    match confirmSession cat s bid with
    | .ok (s', _) => s'
    | .error _ => s
  | .setCustomer email nm ph => { s with customer := { email := some email, name := nm, phone := ph } }
  | .refine delta => { s with prefs := mergePrefs s.prefs delta }
  | .say role content ts => appendMessage s role content ts

/-- Overwrite the status of the booking with the given id, leaving every
other booking alone. -/
def setStatus (bid : Nat) (st : BookingStatus) (b : Booking) : Booking :=
  if b.id = bid then { b with status := st } else b

/-- Modelled from the spec: `update_booking_status` — acknowledges by
returning the updated store when the booking id exists, NotFound
otherwise. -/
def updateBookingStatus (bs : List Booking) (bid : Nat) (st : BookingStatus) :
    Except DomainError (List Booking) :=
  if bs.any (fun b => b.id == bid) then .ok (bs.map (setStatus bid st))
  else .error .NotFound

/-- One `add_item` call absorbed into the session state; a domain error
leaves the session unchanged. -/
def stepAdd (cat : List CatalogItem) (s : Session) (o : Kind × String) : Session :=
  match addItem cat s o.1 o.2 with
  | .ok s' => s'
  | .error _ => s

/-- A whole sequence of `add_item` calls, applied left to right. -/
def applyAdds (cat : List CatalogItem) (s : Session) (ops : List (Kind × String)) : Session :=
  ops.foldl (stepAdd cat) s

/-- The process-wide state: the session registry and the booking store. -/
structure World where
  sessions : List Session
  bookings : List Booking
deriving DecidableEq, Repr

/-- Administrative cancellation acts on the Booking store only; on
NotFound the world is unchanged. -/
def worldUpdateBookingStatus (w : World) (bid : Nat) (st : BookingStatus) : World :=
  match updateBookingStatus w.bookings bid st with
  | .ok bs => { w with bookings := bs }
  | .error _ => w

/-- The entry of the `list_sessions` read model: id, created_at,
destination, confirmed, message_count. -/
structure SessionInfo where
  id : Nat
  createdAt : Nat
  destination : Option String
  confirmed : Bool
  messageCount : Nat
deriving DecidableEq, Repr

/-- Project one Session into the read model; message_count is the length
of the chat history. -/
def sessionInfo (s : Session) : SessionInfo where
  id := s.id
  createdAt := s.createdAt
  destination := s.prefs.destination
  confirmed := s.itin.confirmed
  messageCount := s.chatHistory.length

/-- Modelled from the spec: the global session registry, a keyed store
with explicit lifecycle; the counter issues fresh ids. -/
structure Registry where
  sessions : List Session
  counter : Nat
deriving DecidableEq, Repr

/-- Preferences with every field unset. -/
def emptyPrefs : Preferences :=
  { destination := none, origin := none, startDate := none, endDate := none,
    budget := none, travelStyle := none }

/-- An empty, unconfirmed itinerary. -/
def emptyItin : Itinerary :=
  { flights := [], hotels := [], activities := [], confirmed := false }

/-- A freshly created session: empty preferences, empty itinerary, empty
chat history, no customer info. -/
def newSession (sid now : Nat) : Session :=
  { id := sid, createdAt := now, prefs := emptyPrefs, itin := emptyItin,
    chatHistory := [], customer := { email := none, name := none, phone := none } }

/-- Look a session up by id. -/
def findSession (reg : Registry) (sid : Nat) : Option Session :=
  reg.sessions.find? (fun s => s.id == sid)

/-- Modelled from the spec: `get_or_create(session_id?)` — a known id
returns the existing Session; an unknown id fails with NotFound (a fresh
session is never silently substituted); an omitted id creates a new
Session under a freshly generated id. -/
def getOrCreate (reg : Registry) (now : Nat) : Option Nat → Except DomainError (Session × Registry)
  | some sid =>
    match findSession reg sid with
    | some s => .ok (s, reg)
    | none => .error .NotFound
  | none =>
    let s := newSession reg.counter now
    .ok (s, { sessions := reg.sessions ++ [s], counter := reg.counter + 1 })

/-- Modelled from the spec: `list_sessions()` — the Admin/customer read
model over all sessions. -/
def listSessions (reg : Registry) : List SessionInfo :=
  reg.sessions.map sessionInfo

/-- Append a batch of chat entries to a session, in order. -/
def appendAll (s : Session) (msgs : List ChatEntry) : Session :=
  msgs.foldl (fun t m => appendMessage t m.role m.content m.ts) s

/-- The two retrieval sources, in priority order. -/
inductive RetrievalSource where
  | knowledgeStore
  | fetcher
deriving DecidableEq, Repr

/-- The router's result: either an answer from one source, or an explicit
no-information-found signal (a value, not an exception). -/
inductive RetrievalOutcome where
  | found (answer : String) (src : RetrievalSource)
  | noInformationFound
deriving DecidableEq, Repr

/-- Modelled from the spec: the Retrieval Router queries the Knowledge
Store first (modelled as an optional answer with a confidence score); only
when the store misses or scores below the threshold is the External
Fetcher consulted; when both fail the explicit no-information-found signal
is returned.  The second component is the trace of consulted sources, in
order. -/
def route (threshold : Nat) (store : Option (String × Nat)) (fetch : Option String) :
    RetrievalOutcome × List RetrievalSource :=
  match store with
  | some (ans, conf) =>
    if threshold ≤ conf then (.found ans .knowledgeStore, [.knowledgeStore])
    else
      match fetch with
      | some ans' => (.found ans' .fetcher, [.knowledgeStore, .fetcher])
      | none => (.noInformationFound, [.knowledgeStore, .fetcher])
  | none =>
    match fetch with
    | some ans' => (.found ans' .fetcher, [.knowledgeStore, .fetcher])
    | none => (.noInformationFound, [.knowledgeStore, .fetcher])

/-- A small concrete catalog used by the scenario instances: one flight,
one hotel at 100 per night, one activity at 50. -/
def demoCat : List CatalogItem :=
  [ { id := "FL001", kind := .flight, price := 200 },
    { id := "HT001", kind := .hotel, price := 100 },
    { id := "AC001", kind := .activity, price := 50 } ]

/-- Preferences with a three-night stay (days 10 to 13). -/
def demoPrefs : Preferences :=
  { emptyPrefs with startDate := some 10, endDate := some 13 }

/-- The scenario itinerary: one hotel and one activity, unconfirmed. -/
def demoItin : Itinerary :=
  { flights := [], hotels := ["HT001"], activities := ["AC001"], confirmed := false }

/-- The scenario session: three-night preferences, the scenario itinerary
and a customer email, ready to confirm. -/
def demoSession : Session :=
  { id := 1, createdAt := 0, prefs := demoPrefs, itin := demoItin,
    chatHistory := [], customer := { email := some "ada@example.com", name := none, phone := none } }

/-- A completed booking used by the scenario instances. -/
def demoBooking : Booking :=
  { id := 7, sessionId := 1, status := .completed,
    customer := { email := some "ada@example.com", name := none, phone := none },
    prefs := demoPrefs, itin := { demoItin with confirmed := true },
    total := 350, chatSummary := [] }

end TravelPlanner

namespace Frontend

open TravelPlanner (Kind)

/-- One bookable item as built by `extractBookableItems` in
frontend-next/src/app/chat/page.tsx: a kind tag, the normalized id and a
display label. -/
structure BookableItem where
  type : Kind
  id : String
  label : String
deriving DecidableEq, Repr

/-- Left-to-right scan for the pattern `<p0><p1>\d\x7b3\x7d`, matched
case-insensitively, embedding the JavaScript global regex matches
(`text.match(/FL\d\x7b3\x7d/gi)` etc.): after a match the scan resumes
past it, exactly like the regex engine's lastIndex. -/
def scanAux (p0 p1 : Char) : Nat → List Char → List (List Char)
  | 0, _ => []
  | _ + 1, [] => []
  | fuel + 1, c0 :: tail =>
    match tail with
    | c1 :: c2 :: c3 :: c4 :: rest =>
      if c0.toUpper = p0 ∧ c1.toUpper = p1 ∧ c2.isDigit ∧ c3.isDigit ∧ c4.isDigit then
        [c0, c1, c2, c3, c4] :: scanAux p0 p1 fuel rest
      else
        scanAux p0 p1 fuel tail
    | _ => scanAux p0 p1 fuel tail

/-- The scan with enough fuel for the whole text (every recursive step of
`scanAux` consumes at least one character, so the length suffices). -/
def scanMatches (p0 p1 : Char) (l : List Char) : List (List Char) :=
  scanAux p0 p1 l.length l

/-- Uppercase normalization of a matched id, embedding
`id.toUpperCase()`. -/
def normUpper (m : List Char) : String :=
  String.mk (m.map Char.toUpper)

/-- One iteration of the `matches.forEach` loop of `extractBookableItems`:
push the match (normalized to uppercase) unless an item with that id is
already present (`items.find(i => i.id === normalizedId)`). -/
def pushOne (ty : Kind) (lab : String) (acc : List BookableItem) (m : List Char) :
    List BookableItem :=
  let nid := normUpper m
  if acc.any (fun i => i.id == nid) then acc
  else acc ++ [{ type := ty, id := nid, label := lab ++ nid }]

/-- One whole `matches.forEach` loop of `extractBookableItems`. -/
def pushItems (ty : Kind) (lab : String) (ms : List (List Char)) (items : List BookableItem) :
    List BookableItem :=
  ms.foldl (pushOne ty lab) items

/-- Embedding of `extractBookableItems` (chat/page.tsx): match the three
patterns over the text, then push flight matches, hotel matches and
activity matches, in that order, deduplicating against all items pushed
so far. -/
def extractBookableItems (t : String) : List BookableItem :=
  let flightMatches := scanMatches 'F' 'L' t.data
  let hotelMatches := scanMatches 'H' 'T' t.data
  let activityMatches := scanMatches 'A' 'C' t.data
  pushItems .activity "Activity " activityMatches
    (pushItems .hotel "Hotel " hotelMatches
      (pushItems .flight "Flight " flightMatches []))

/-- Left-to-right scan for all three kind patterns at once, yielding the
matches in text order.  This is the claim-side definition, following the
spec's words: the extracted ids are the substrings matching a two-letter
kind prefix (FL, HT, AC) plus exactly three digits, case-insensitive,
normalized to uppercase, in first-seen order. -/
def scanAllKindsAux : Nat → List Char → List (Kind × String)
  | 0, _ => []
  | _ + 1, [] => []
  | fuel + 1, c0 :: tail =>
    match tail with
    | c1 :: c2 :: c3 :: c4 :: rest =>
      if c2.isDigit ∧ c3.isDigit ∧ c4.isDigit then
        if c0.toUpper = 'F' ∧ c1.toUpper = 'L' then
          (.flight, normUpper [c0, c1, c2, c3, c4]) :: scanAllKindsAux fuel rest
        else if c0.toUpper = 'H' ∧ c1.toUpper = 'T' then
          (.hotel, normUpper [c0, c1, c2, c3, c4]) :: scanAllKindsAux fuel rest
        else if c0.toUpper = 'A' ∧ c1.toUpper = 'C' then
          (.activity, normUpper [c0, c1, c2, c3, c4]) :: scanAllKindsAux fuel rest
        else scanAllKindsAux fuel tail
      else scanAllKindsAux fuel tail
    | _ => scanAllKindsAux fuel tail

/-- The combined scan with enough fuel for the whole text. -/
def scanAllKinds (l : List Char) : List (Kind × String) :=
  scanAllKindsAux l.length l

/-- First-seen-order deduplication. -/
def dedupFirstSeen (l : List α) [DecidableEq α] : List α :=
  l.foldl (fun acc x => if x ∈ acc then acc else acc ++ [x]) []

/-- Claim-side definition, following the spec's words: the ids extracted
from a text are exactly the matching substrings, uppercased, deduplicated
preserving first-seen order. -/
def specExtractIds (t : String) : List (Kind × String) :=
  dedupFirstSeen (scanAllKinds t.data)

/-- Does the second character list begin with the first? -/
def charsBegin : List Char → List Char → Bool
  | [], _ => true
  | _ :: _, [] => false
  | p :: ps, c :: cs => p == c && charsBegin ps cs

/-- Does the second character list contain the first as a contiguous
run? -/
def charsContain (pat : List Char) : List Char → Bool
  | [] => pat.isEmpty
  | c :: rest => charsBegin pat (c :: rest) || charsContain pat rest

/-- The complete HTTP surface the clients use, one constructor per fetch
helper in frontend-next/src/lib/api.ts (the legacy frontend/app.js calls
the same routes directly). -/
inductive ClientRequest where
  | chat (message : String) (sessionId : Option String)
  | book (sessionId itemType itemId : String)
  | getItinerary (sessionId : String)
  | customerInfo (sessionId email : String) (name phone : Option String)
  | getSessions
  | getSessionDetails (sessionId : String)
  | getBookings
  | getBookingDetails (bookingId : String)
  | patchBookingStatus (bookingId status : String)
deriving DecidableEq, Repr

/-- The fixed route component of each request's URL (the per-request path
or query parameters are appended after it by the fetch helpers). -/
def ClientRequest.routeName : ClientRequest → String
  | .chat .. => "/chat"
  | .book .. => "/book"
  | .getItinerary _ => "/itinerary"
  | .customerInfo .. => "/customer-info"
  | .getSessions => "/admin/sessions"
  | .getSessionDetails _ => "/admin/session"
  | .getBookings => "/admin/bookings"
  | .getBookingDetails _ => "/admin/booking"
  | .patchBookingStatus .. => "/admin/booking"

/-- Embedding of `handleConfirm` (chat/page.tsx, lines 271-302): save the
customer info, send the literal chat message "Please confirm my booking"
on the same session, then refresh the itinerary.  The value is the ordered
list of requests the handler issues. -/
def handleConfirmRequests (sid email : String) (name phone : Option String) :
    List ClientRequest :=
  [ .customerInfo sid email name phone,
    .chat "Please confirm my booking" (some sid),
    .getItinerary sid ]

/-- Embedding of `submitBooking` (frontend/app.js, lines 327-359): an
empty email aborts before any request; otherwise customer info is posted
(empty name/phone become null) and the literal message "Please confirm my
booking" is sent through the chat endpoint. -/
def submitBookingRequests (sid email name phone : String) : List ClientRequest :=
  if email = "" then []
  else
    [ .customerInfo sid email (if name = "" then none else some name)
        (if phone = "" then none else some phone),
      .chat "Please confirm my booking" (some sid) ]

/-- The chat endpoint's response shape (api.ts `ChatResponse`), with the
fields the confirmation flow reads. -/
structure ClientChatResponse where
  sessionId : String
  response : String
  intent : String
  itinSummary : String
  confirmed : Bool
  bookingId : Option String
deriving DecidableEq, Repr

/-- Embedding of `if (response.booking_id) setBookingId(response.booking_id)`
(JavaScript truthiness: a null or empty booking_id leaves the stored id
alone). -/
def updatedBookingId (resp : ClientChatResponse) (old : Option String) : Option String :=
  match resp.bookingId with
  | some bid => if bid = "" then old else some bid
  | none => old

end Frontend

open TravelPlanner Frontend

/-- Inserting a selection never touches the confirmed flag. -/
theorem insertId_confirmed (it : Itinerary) (k : Kind) (cid : String) :
    (it.insertId k cid).confirmed = it.confirmed := by
  cases k <;> rfl

/-- Erasing a selection never touches the confirmed flag. -/
theorem eraseId_confirmed (it : Itinerary) (k : Kind) (cid : String) :
    (it.eraseId k cid).confirmed = it.confirmed := by
  cases k <;> rfl

/-- The id lists of an itinerary after inserting a selection. -/
theorem kindIds_insertId (it : Itinerary) (k k' : Kind) (cid : String) :
    (it.insertId k cid).kindIds k' =
      if k' = k then it.kindIds k' ++ [cid] else it.kindIds k' := by
  cases k <;> cases k' <;> simp [Itinerary.insertId, Itinerary.kindIds]

/-- An absorbed `add_item` call never touches the confirmed flag. -/
theorem stepAdd_confirmed (cat : List CatalogItem) (s : Session) (o : Kind × String) :
    (stepAdd cat s o).itin.confirmed = s.itin.confirmed := by
  by_cases h1 : s.itin.confirmed = true
  · simp [stepAdd, addItem, h1]
  · by_cases h2 : (resolve cat o.1 o.2).isNone = true
    · simp [stepAdd, addItem, h1, h2]
    · by_cases h3 : o.2 ∈ s.itin.kindIds o.1
      · simp [stepAdd, addItem, h1, h2, h3]
      · simp [stepAdd, addItem, h1, h2, h3, insertId_confirmed]


/-- C2: for every session, confirm fails with EmptyItinerary whenever the
itinerary has no selections; failing that check it fails with
MissingCustomerInfo whenever the customer email is absent; and otherwise
it sets confirmed to true, generates the Booking snapshot and returns the
Booking id (the checks are sequential in the spec's stated order). -/
theorem confirm_contract (cat : List CatalogItem) (s : Session) (bid : Nat) :
    (s.itin.flights = [] ∧ s.itin.hotels = [] ∧ s.itin.activities = [] →
      confirmSession cat s bid = .error .EmptyItinerary) ∧
    (¬(s.itin.flights = [] ∧ s.itin.hotels = [] ∧ s.itin.activities = []) →
      s.customer.email = none →
      confirmSession cat s bid = .error .MissingCustomerInfo) ∧
    (¬(s.itin.flights = [] ∧ s.itin.hotels = [] ∧ s.itin.activities = []) →
      s.customer.email ≠ none →
      ∃ s' b, confirmSession cat s bid = .ok (s', b) ∧
        s'.itin.confirmed = true ∧ b.id = bid ∧ b.sessionId = s.id ∧
        b.status = .confirmed ∧ b.itin = s'.itin ∧ b.prefs = s.prefs ∧
        b.customer = s.customer ∧ b.total = totalCost cat s.prefs s.itin) := by
  refine ⟨?_, ?_, ?_⟩
  · intro h
    unfold confirmSession
    rw [if_pos h]
  · intro h h2
    unfold confirmSession
    rw [if_neg h, if_pos h2]
  · intro h h2
    unfold confirmSession
    rw [if_neg h, if_neg h2]
    exact ⟨_, _, rfl, rfl, rfl, rfl, rfl, rfl, rfl, rfl, rfl⟩

/-- Witness for C2 at concrete inputs: a fresh session has an empty
itinerary, the demo itinerary without an email is missing customer info,
and the demo session confirms. -/
theorem confirm_contract_witness :
    confirmSession demoCat (newSession 0 0) 7 = .error .EmptyItinerary ∧
    confirmSession demoCat { demoSession with
        customer := { email := none, name := none, phone := none } } 7 =
      .error .MissingCustomerInfo ∧
    ∃ s' b, confirmSession demoCat demoSession 7 = .ok (s', b) ∧
      s'.itin.confirmed = true ∧ b.id = 7 ∧ b.sessionId = demoSession.id ∧
      b.status = .confirmed ∧ b.itin = s'.itin ∧ b.prefs = demoSession.prefs ∧
      b.customer = demoSession.customer ∧
      b.total = totalCost demoCat demoSession.prefs demoSession.itin :=
  ⟨(confirm_contract demoCat (newSession 0 0) 7).1 (by decide),
   (confirm_contract demoCat { demoSession with
        customer := { email := none, name := none, phone := none } } 7).2.1
     (by decide) (by decide),
   (confirm_contract demoCat demoSession 7).2.2 (by decide) (by decide)⟩

/-- C4: on an unconfirmed session, re-adding a catalog id already present
in the itinerary for its kind fails with Duplicate, leaves the session
unchanged, and in particular the total cost after the second call equals
the total cost after the first (no double-counting). -/
theorem duplicate_add_rejected (cat : List CatalogItem) (p : Preferences) (s : Session)
    (k : Kind) (cid : String)
    (hconf : s.itin.confirmed = false)
    (hres : (resolve cat k cid).isSome = true)
    (hmem : cid ∈ s.itin.kindIds k) :
    addItem cat s k cid = .error .Duplicate ∧
    applySessionOp cat s (.add k cid) = s ∧
    totalCost cat p (applySessionOp cat s (.add k cid)).itin = totalCost cat p s.itin := by
  have hn : ¬((resolve cat k cid).isNone = true) := by
    simp only [Option.isNone_iff_eq_none]
    exact Option.ne_none_iff_isSome.mpr hres
  have h1 : addItem cat s k cid = .error .Duplicate := by
    unfold addItem
    rw [if_neg (by simp [hconf]), if_neg hn, if_pos hmem]
  refine ⟨h1, ?_, ?_⟩
  · simp [applySessionOp, h1]
  · simp [applySessionOp, h1]

/-- Witness for C4: re-adding the demo hotel to the demo session is
rejected as a duplicate and the total is unchanged. -/
theorem duplicate_add_rejected_witness :
    addItem demoCat demoSession .hotel "HT001" = .error .Duplicate ∧
    applySessionOp demoCat demoSession (.add .hotel "HT001") = demoSession ∧
    totalCost demoCat demoPrefs
        (applySessionOp demoCat demoSession (.add .hotel "HT001")).itin =
      totalCost demoCat demoPrefs demoSession.itin :=
  duplicate_add_rejected demoCat demoPrefs demoSession .hotel "HT001"
    (by decide) (by decide) (by decide)

/-- C6: the Retrieval Router's consultation trace always starts with the
Knowledge Store; when the store answers at or above the confidence
threshold the Fetcher is never consulted; and when the store misses (or
scores below threshold) and the Fetcher also fails, the router returns
the explicit no-information-found signal (a value of the outcome type,
not an exception). -/
theorem retrieval_priority (threshold : Nat) (store : Option (String × Nat))
    (fetch : Option String) :
    (route threshold store fetch).2.head? = some .knowledgeStore ∧
    (∀ ans conf, store = some (ans, conf) → threshold ≤ conf →
      RetrievalSource.fetcher ∉ (route threshold store fetch).2) ∧
    ((∀ ans conf, store = some (ans, conf) → conf < threshold) → fetch = none →
      (route threshold store fetch).1 = .noInformationFound) := by
  obtain _ | ⟨ans, conf⟩ := store <;> obtain _ | ans' := fetch
  · exact ⟨rfl, by simp, fun _ _ => rfl⟩
  · exact ⟨rfl, by simp, by simp⟩
  · by_cases hc : threshold ≤ conf
    · refine ⟨by simp [route, hc], by simp [route, hc], ?_⟩
      intro hlow _
      exact absurd (hlow ans conf rfl) (by omega)
    · exact ⟨by simp [route, hc], by simp [route, hc, Nat.lt_of_not_le], fun _ _ => by
        simp [route, hc]⟩
  · by_cases hc : threshold ≤ conf
    · refine ⟨by simp [route, hc], by simp [route, hc], ?_⟩
      intro hlow
      exact absurd (hlow ans conf rfl) (by omega)
    · exact ⟨by simp [route, hc], by simp [route, hc, Nat.lt_of_not_le], by simp⟩

/-- Witness for C6: with threshold 50, a confident store answer is served
without the Fetcher, and a store miss with no Fetcher answer yields the
no-information-found signal. -/
theorem retrieval_priority_witness :
    (route 50 (some ("guide", 80)) none).2.head? = some .knowledgeStore ∧
    RetrievalSource.fetcher ∉ (route 50 (some ("guide", 80)) none).2 ∧
    (route 50 none none).1 = .noInformationFound :=
  ⟨(retrieval_priority 50 (some ("guide", 80)) none).1,
   (retrieval_priority 50 (some ("guide", 80)) none).2.1 "guide" 80 rfl (by decide),
   (retrieval_priority 50 none none).2.2 (by simp) rfl⟩

/-- C7: `get_or_create` returns the existing Session (and an unchanged
registry) for a known id, fails with NotFound for an unknown id — it
never substitutes a fresh session — and with no id it creates a new
Session under a freshly generated id that collides with no existing
session; the freshness invariant is preserved. -/
theorem get_or_create_contract (reg : Registry) (now sid : Nat) (s : Session)
    (hinv : ∀ t ∈ reg.sessions, t.id < reg.counter) :
    (findSession reg sid = some s → getOrCreate reg now (some sid) = .ok (s, reg)) ∧
    (findSession reg sid = none → getOrCreate reg now (some sid) = .error .NotFound) ∧
    (∃ snew reg', getOrCreate reg now none = .ok (snew, reg') ∧
      snew = newSession reg.counter now ∧
      (∀ t ∈ reg.sessions, t.id ≠ snew.id) ∧
      reg'.sessions = reg.sessions ++ [snew] ∧
      ∀ t ∈ reg'.sessions, t.id < reg'.counter) := by
  refine ⟨?_, ?_, ?_⟩
  · intro h
    simp [getOrCreate, h]
  · intro h
    simp [getOrCreate, h]
  · refine ⟨newSession reg.counter now, _, rfl, rfl, ?_, rfl, ?_⟩
    · intro t ht
      exact Nat.ne_of_lt (hinv t ht)
    · intro t ht
      rcases List.mem_append.mp ht with h | h
      · exact Nat.lt_succ_of_lt (hinv t h)
      · rw [List.mem_singleton.mp h]
        exact Nat.lt_succ_self _

/-- Setting a booking's status never changes its id. -/
theorem setStatus_id (bid : Nat) (st : BookingStatus) (b : Booking) :
    (setStatus bid st b).id = b.id := by
  unfold setStatus
  split <;> rfl

/-- Setting the same status twice is the same as setting it once. -/
theorem setStatus_idem (bid : Nat) (st : BookingStatus) (b : Booking) :
    setStatus bid st (setStatus bid st b) = setStatus bid st b := by
  unfold setStatus
  by_cases h : b.id = bid <;> simp [h]

/-- C8: `update_booking_status` with a status in completed or cancelled
acknowledges (returns an updated store) for an existing booking id and
fails with NotFound otherwise; cancelling a completed booking succeeds
and the booking's status becomes cancelled; and repeating the same call
returns the same store (idempotent). -/
theorem update_booking_status_contract (bs : List Booking) (bid : Nat)
    (st : BookingStatus) (b : Booking)
    (hst : st = .completed ∨ st = .cancelled) :
    ((∃ b2 ∈ bs, b2.id = bid) → ∃ bs2, updateBookingStatus bs bid st = .ok bs2) ∧
    ((∀ b2 ∈ bs, b2.id ≠ bid) → updateBookingStatus bs bid st = .error .NotFound) ∧
    (b ∈ bs → b.id = bid → b.status = .completed →
      ∃ bs2, updateBookingStatus bs bid .cancelled = .ok bs2 ∧
        (∃ b2 ∈ bs2, b2.id = bid) ∧
        ∀ b2 ∈ bs2, b2.id = bid → b2.status = .cancelled) ∧
    (∀ bs2, updateBookingStatus bs bid st = .ok bs2 →
      updateBookingStatus bs2 bid st = .ok bs2) := by
  refine ⟨?_, ?_, ?_, ?_⟩
  · rintro ⟨b2, hb2, hid⟩
    refine ⟨bs.map (setStatus bid st), ?_⟩
    unfold updateBookingStatus
    rw [if_pos (by simp only [List.any_eq_true, beq_iff_eq]; exact ⟨b2, hb2, hid⟩)]
  · intro h
    unfold updateBookingStatus
    rw [if_neg (by simp only [List.any_eq_true, beq_iff_eq]; push_neg; exact h)]
  · intro hb hid _
    have hany : (bs.any fun b2 => b2.id == bid) = true := by
      simp only [List.any_eq_true, beq_iff_eq]
      exact ⟨b, hb, hid⟩
    refine ⟨bs.map (setStatus bid .cancelled), ?_, ⟨setStatus bid .cancelled b, ?_, ?_⟩, ?_⟩
    · unfold updateBookingStatus
      rw [if_pos hany]
    · exact List.mem_map_of_mem _ hb
    · rw [setStatus_id]
      exact hid
    · intro b2 hb2 hbid
      rcases List.mem_map.mp hb2 with ⟨b3, _, rfl⟩
      rw [setStatus_id] at hbid
      simp [setStatus, hbid]
  · intro bs2 h
    unfold updateBookingStatus at h ⊢
    by_cases hany : (bs.any fun b2 => b2.id == bid) = true
    · rw [if_pos hany] at h
      injection h with h
      subst h
      have hany2 : ((bs.map (setStatus bid st)).any fun b2 => b2.id == bid) = true := by
        rw [List.any_map]
        have : ((fun b2 => b2.id == bid) ∘ setStatus bid st) = fun b2 => b2.id == bid := by
          funext b2
          simp [setStatus_id]
        rw [this]
        exact hany
      rw [if_pos hany2, List.map_map]
      have : (setStatus bid st ∘ setStatus bid st) = setStatus bid st := by
        funext b2
        simp [setStatus_idem]
      rw [this]
    · rw [if_neg hany] at h
      exact absurd h (by simp)

/-- Witness for C8 at a concrete store: one completed booking that gets
cancelled and acknowledged, a missing id is NotFound, and repeating the
cancellation on the updated store returns the same store. -/
theorem update_booking_status_contract_witness :
    (∃ bs2, updateBookingStatus [demoBooking] 7 .cancelled = .ok bs2) ∧
    updateBookingStatus [] 7 .cancelled = .error .NotFound ∧
    (∃ bs2, updateBookingStatus [demoBooking] 7 .cancelled = .ok bs2 ∧
      (∃ b2 ∈ bs2, b2.id = 7) ∧
      ∀ b2 ∈ bs2, b2.id = 7 → b2.status = .cancelled) ∧
    updateBookingStatus ([demoBooking].map (setStatus 7 .cancelled)) 7 .cancelled =
      .ok ([demoBooking].map (setStatus 7 .cancelled)) :=
  ⟨(update_booking_status_contract [demoBooking] 7 .cancelled demoBooking
      (Or.inr rfl)).1 ⟨demoBooking, by simp, rfl⟩,
   (update_booking_status_contract [] 7 .cancelled demoBooking (Or.inr rfl)).2.1
      (by simp),
   (update_booking_status_contract [demoBooking] 7 .cancelled demoBooking
      (Or.inr rfl)).2.2.1 (by simp) rfl rfl,
   (update_booking_status_contract [demoBooking] 7 .cancelled demoBooking
      (Or.inr rfl)).2.2.2 _ (by rfl)⟩

/-- C9: `list_sessions` projects each session through `sessionInfo`, and
the message_count of a session equals the number of chat-history entries
appended to it — in particular a session created fresh and given n
appended entries reports message_count n, for every n ≥ 0. -/
theorem message_count_tracks (reg : Registry) (s : Session) (sid now : Nat)
    (msgs : List ChatEntry) :
    listSessions reg = reg.sessions.map sessionInfo ∧
    (sessionInfo (appendAll s msgs)).messageCount = s.chatHistory.length + msgs.length ∧
    (sessionInfo (appendAll (newSession sid now) msgs)).messageCount = msgs.length := by
  have key : ∀ (t : Session) (ms : List ChatEntry),
      (sessionInfo (appendAll t ms)).messageCount = t.chatHistory.length + ms.length := by
    intro t ms
    induction ms generalizing t with
    | nil => simp [appendAll, sessionInfo]
    | cons m ms ih =>
      have : appendAll t (m :: ms) = appendAll (appendMessage t m.role m.content m.ts) ms := rfl
      rw [this, ih]
      simp [appendMessage]
      omega
  refine ⟨rfl, key s msgs, ?_⟩
  rw [key (newSession sid now) msgs]
  simp [newSession]

/-- C1: once a session's itinerary is confirmed, the confirmed flag stays
true under every session operation; add_item and remove_item fail with
AlreadyConfirmed and leave the itinerary contents unchanged; and
administrative cancellation acts only on the Booking store, never on the
sessions (it is a distinct terminal Booking status, not a reversal). -/
theorem confirmed_monotone_frozen (cat : List CatalogItem) (s : Session) (k : Kind)
    (cid : String) (op : SessionOp) (w : World) (bid : Nat) (st : BookingStatus)
    (h : s.itin.confirmed = true) :
    (applySessionOp cat s op).itin.confirmed = true ∧
    addItem cat s k cid = .error .AlreadyConfirmed ∧
    removeItem s k cid = .error .AlreadyConfirmed ∧
    (applySessionOp cat s (.add k cid)).itin = s.itin ∧
    (applySessionOp cat s (.remove k cid)).itin = s.itin ∧
    (worldUpdateBookingStatus w bid st).sessions = w.sessions := by
  have hadd : ∀ k2 cid2, addItem cat s k2 cid2 = .error .AlreadyConfirmed := by
    intro k2 cid2
    unfold addItem
    rw [if_pos h]
  have hrem : ∀ k2 cid2, removeItem s k2 cid2 = .error .AlreadyConfirmed := by
    intro k2 cid2
    unfold removeItem
    rw [if_pos h]
  refine ⟨?_, hadd k cid, hrem k cid, by simp [applySessionOp, hadd], by
    simp [applySessionOp, hrem], ?_⟩
  · cases op with
    | add k2 cid2 => simp [applySessionOp, hadd, h]
    | remove k2 cid2 => simp [applySessionOp, hrem, h]
    | confirm bid2 =>
      by_cases h1 : s.itin.flights = [] ∧ s.itin.hotels = [] ∧ s.itin.activities = []
      · simp [applySessionOp, confirmSession, h1, h]
      · by_cases h2 : s.customer.email = none
        · simp [applySessionOp, confirmSession, h1, h2, h]
        · simp [applySessionOp, confirmSession, h1, h2, h]
    | setCustomer email nm ph => exact h
    | refine delta => exact h
    | say role content ts => exact h
  · unfold worldUpdateBookingStatus
    split <;> rfl

/-- Witness for C1: the confirmed demo session rejects further mutation
and a booking-store cancellation leaves the sessions untouched. -/
theorem confirmed_monotone_frozen_witness :
    (applySessionOp demoCat
        { demoSession with itin := { demoItin with confirmed := true } }
        (.add .flight "FL001")).itin.confirmed = true ∧
    addItem demoCat { demoSession with itin := { demoItin with confirmed := true } }
        .flight "FL001" = .error .AlreadyConfirmed ∧
    removeItem { demoSession with itin := { demoItin with confirmed := true } }
        .hotel "HT001" = .error .AlreadyConfirmed ∧
    (applySessionOp demoCat { demoSession with itin := { demoItin with confirmed := true } }
        (.add .flight "FL001")).itin = { demoItin with confirmed := true } ∧
    (applySessionOp demoCat { demoSession with itin := { demoItin with confirmed := true } }
        (.remove .hotel "HT001")).itin = { demoItin with confirmed := true } ∧
    (worldUpdateBookingStatus { sessions := [demoSession], bookings := [demoBooking] }
        7 .cancelled).sessions = [demoSession] := by
  have h := confirmed_monotone_frozen demoCat
    { demoSession with itin := { demoItin with confirmed := true } } .hotel "HT001"
    (.add .flight "FL001") { sessions := [demoSession], bookings := [demoBooking] }
    7 .cancelled (by decide)
  have h2 := confirmed_monotone_frozen demoCat
    { demoSession with itin := { demoItin with confirmed := true } } .flight "FL001"
    (.remove .hotel "HT001") { sessions := [demoSession], bookings := [demoBooking] }
    7 .cancelled (by decide)
  exact ⟨h.1, h2.2.1, h.2.2.1, h2.2.2.2.1, h.2.2.2.2.1, h.2.2.2.2.2⟩

/-- Witness for C7 on a one-session registry: the known id is returned
unchanged, an unknown id is NotFound, and omitting the id creates a fresh
session. -/
theorem get_or_create_contract_witness :
    getOrCreate { sessions := [demoSession], counter := 2 } 5 (some 1) =
      .ok (demoSession, { sessions := [demoSession], counter := 2 }) ∧
    getOrCreate { sessions := [demoSession], counter := 2 } 5 (some 9) =
      .error .NotFound ∧
    ∃ snew reg2,
      getOrCreate { sessions := [demoSession], counter := 2 } 5 none = .ok (snew, reg2) ∧
      snew = newSession 2 5 ∧
      (∀ t ∈ [demoSession], t.id ≠ snew.id) ∧
      reg2.sessions = [demoSession] ++ [snew] ∧
      ∀ t ∈ reg2.sessions, t.id < reg2.counter :=
  ⟨(get_or_create_contract { sessions := [demoSession], counter := 2 } 5 1 demoSession
      (by decide)).1 (by decide),
   (get_or_create_contract { sessions := [demoSession], counter := 2 } 5 9 demoSession
      (by decide)).2.1 (by decide),
   (get_or_create_contract { sessions := [demoSession], counter := 2 } 5 1 demoSession
      (by decide)).2.2⟩

/-- Applying a sequence of add calls never touches the confirmed flag. -/
theorem applyAdds_confirmed (cat : List CatalogItem) (s : Session)
    (ops : List (Kind × String)) :
    (applyAdds cat s ops).itin.confirmed = s.itin.confirmed := by
  induction ops generalizing s with
  | nil => rfl
  | cons o ops ih =>
    have : applyAdds cat s (o :: ops) = applyAdds cat (stepAdd cat s o) ops := rfl
    rw [this, ih, stepAdd_confirmed]

/-- Membership in the id lists after one absorbed add call, on an
unconfirmed session: the id lists only ever gain the added id, and only
when it resolves. -/
theorem mem_stepAdd (cat : List CatalogItem) (s : Session) (o : Kind × String)
    (k2 : Kind) (x : String) (hconf : s.itin.confirmed = false) :
    (x ∈ (stepAdd cat s o).itin.kindIds k2 ↔
      x ∈ s.itin.kindIds k2 ∨ (k2 = o.1 ∧ x = o.2 ∧ (resolve cat o.1 o.2).isSome = true)) := by
  have h1 : ¬(s.itin.confirmed = true) := by simp [hconf]
  by_cases h2 : (resolve cat o.1 o.2).isNone = true
  · have hns : (resolve cat o.1 o.2).isSome = false := by
      rcases hr : resolve cat o.1 o.2 with _ | c
      · rfl
      · rw [hr] at h2
        exact absurd h2 (by simp)
    simp [stepAdd, addItem, h1, h2, hns]
  · have hs : (resolve cat o.1 o.2).isSome = true := by
      rcases hr : resolve cat o.1 o.2 with _ | c
      · rw [hr] at h2
        exact absurd rfl h2
      · rfl
    by_cases h3 : o.2 ∈ s.itin.kindIds o.1
    · have : stepAdd cat s o = s := by
        simp [stepAdd, addItem, h1, h2, h3]
      rw [this]
      constructor
      · exact Or.inl
      · rintro (hx | ⟨rfl, rfl, _⟩)
        · exact hx
        · exact h3
    · have : (stepAdd cat s o).itin = s.itin.insertId o.1 o.2 := by
        simp [stepAdd, addItem, h1, h2, h3]
      rw [this, kindIds_insertId]
      by_cases hk : k2 = o.1
      · rw [if_pos hk, hs]
        simp [hk]
      · rw [if_neg hk]
        simp [hk]

/-- Membership in the id lists after a whole sequence of add calls, on an
unconfirmed session. -/
theorem mem_applyAdds (cat : List CatalogItem) (s : Session)
    (ops : List (Kind × String)) (k2 : Kind) (x : String)
    (hconf : s.itin.confirmed = false) :
    (x ∈ (applyAdds cat s ops).itin.kindIds k2 ↔
      x ∈ s.itin.kindIds k2 ∨
        ∃ o ∈ ops, k2 = o.1 ∧ x = o.2 ∧ (resolve cat o.1 o.2).isSome = true) := by
  induction ops generalizing s with
  | nil => simp [applyAdds]
  | cons o ops ih =>
    have hstep : applyAdds cat s (o :: ops) = applyAdds cat (stepAdd cat s o) ops := rfl
    have hconf2 : (stepAdd cat s o).itin.confirmed = false := by
      rw [stepAdd_confirmed]
      exact hconf
    rw [hstep, ih (stepAdd cat s o) hconf2, mem_stepAdd cat s o k2 x hconf]
    simp only [List.mem_cons]
    constructor
    · rintro ((hx | ho) | ⟨o2, ho2, hprop⟩)
      · exact Or.inl hx
      · exact Or.inr ⟨o, Or.inl rfl, ho⟩
      · exact Or.inr ⟨o2, Or.inr ho2, hprop⟩
    · rintro (hx | ⟨o2, (rfl | ho2), hprop⟩)
      · exact Or.inl (Or.inl hx)
      · exact Or.inl (Or.inr hprop)
      · exact Or.inr ⟨o2, ho2, hprop⟩

/-- One absorbed add call keeps each kind's id list duplicate-free. -/
theorem nodup_stepAdd (cat : List CatalogItem) (s : Session) (o : Kind × String)
    (k2 : Kind) (hnd : (s.itin.kindIds k2).Nodup) :
    ((stepAdd cat s o).itin.kindIds k2).Nodup := by
  by_cases h1 : s.itin.confirmed = true
  · simp [stepAdd, addItem, h1, hnd]
  · by_cases h2 : (resolve cat o.1 o.2).isNone = true
    · simp [stepAdd, addItem, h1, h2, hnd]
    · by_cases h3 : o.2 ∈ s.itin.kindIds o.1
      · simp [stepAdd, addItem, h1, h2, h3, hnd]
      · have : (stepAdd cat s o).itin = s.itin.insertId o.1 o.2 := by
          simp [stepAdd, addItem, h1, h2, h3]
        rw [this, kindIds_insertId]
        by_cases hk : k2 = o.1
        · rw [if_pos hk]
          subst hk
          simp [List.nodup_append, hnd, h3]
        · rw [if_neg hk]
          exact hnd

/-- A whole sequence of add calls keeps each kind's id list
duplicate-free. -/
theorem nodup_applyAdds (cat : List CatalogItem) (s : Session)
    (ops : List (Kind × String)) (k2 : Kind) (hnd : (s.itin.kindIds k2).Nodup) :
    ((applyAdds cat s ops).itin.kindIds k2).Nodup := by
  induction ops generalizing s with
  | nil => exact hnd
  | cons o ops ih =>
    have hstep : applyAdds cat s (o :: ops) = applyAdds cat (stepAdd cat s o) ops := rfl
    rw [hstep]
    exact ih (stepAdd cat s o) (nodup_stepAdd cat s o k2 hnd)

/-- Total cost written through the kind projection. -/
theorem totalCost_kindIds (cat : List CatalogItem) (p : Preferences) (it : Itinerary) :
    totalCost cat p it =
      ((it.kindIds .flight).map (itemCost cat p .flight)).sum
        + ((it.kindIds .hotel).map (itemCost cat p .hotel)).sum
        + ((it.kindIds .activity).map (itemCost cat p .activity)).sum := rfl

/-- C3: total_cost is the deterministic pure sum of flight prices, hotel
price-per-night times the nights derived from the preference dates
(defaulting to 1 when a date is absent), and activity prices; applying any
two permutations of the same add_item sequence to an unconfirmed,
duplicate-free session yields the same total_cost; and the scenario of
one hotel at 100 per night for 3 nights plus one activity at 50 totals
350. -/
theorem total_cost_behavior (cat : List CatalogItem) (p : Preferences) (it : Itinerary)
    (s : Session) (ops ops2 : List (Kind × String))
    (hperm : ops.Perm ops2)
    (hconf : s.itin.confirmed = false)
    (hF : s.itin.flights.Nodup) (hH : s.itin.hotels.Nodup) (hA : s.itin.activities.Nodup) :
    totalCost cat p it =
        (it.flights.map (fun cid => (priceOf cat .flight cid).getD 0)).sum
      + (it.hotels.map (fun cid => (priceOf cat .hotel cid).getD 0 * nights p)).sum
      + (it.activities.map (fun cid => (priceOf cat .activity cid).getD 0)).sum ∧
    (p.startDate = none ∨ p.endDate = none → nights p = 1) ∧
    totalCost cat p (applyAdds cat s ops).itin = totalCost cat p (applyAdds cat s ops2).itin ∧
    totalCost demoCat demoPrefs demoItin = 350 := by
  refine ⟨rfl, ?_, ?_, by decide⟩
  · rintro (h | h)
    · simp [nights, h]
    · cases hs : p.startDate <;> simp [nights, h, hs]
  · have hndk : ∀ k2 : Kind, (s.itin.kindIds k2).Nodup := by
      intro k2
      cases k2
      · exact hF
      · exact hH
      · exact hA
    have key : ∀ k2 : Kind,
        ((applyAdds cat s ops).itin.kindIds k2).Perm
          ((applyAdds cat s ops2).itin.kindIds k2) := by
      intro k2
      rw [List.perm_ext_iff_of_nodup (nodup_applyAdds cat s ops k2 (hndk k2))
        (nodup_applyAdds cat s ops2 k2 (hndk k2))]
      intro x
      rw [mem_applyAdds cat s ops k2 x hconf, mem_applyAdds cat s ops2 k2 x hconf]
      exact or_congr Iff.rfl
        (exists_congr fun o => and_congr_left fun _ => hperm.mem_iff)
    rw [totalCost_kindIds, totalCost_kindIds]
    rw [((key .flight).map (itemCost cat p .flight)).sum_eq,
      ((key .hotel).map (itemCost cat p .hotel)).sum_eq,
      ((key .activity).map (itemCost cat p .activity)).sum_eq]

/-- Witness for C3: swapping the order of adding the demo hotel and the
demo activity to a fresh session yields the same total, and the scenario
total is 350. -/
theorem total_cost_behavior_witness :
    nights demoPrefs = 3 ∧
    totalCost demoCat demoPrefs
        (applyAdds demoCat (newSession 0 0)
          [(Kind.hotel, "HT001"), (Kind.activity, "AC001")]).itin =
      totalCost demoCat demoPrefs
        (applyAdds demoCat (newSession 0 0)
          [(Kind.activity, "AC001"), (Kind.hotel, "HT001")]).itin ∧
    totalCost demoCat demoPrefs demoItin = 350 :=
  ⟨by decide,
   (total_cost_behavior demoCat demoPrefs demoItin (newSession 0 0)
      [(Kind.hotel, "HT001"), (Kind.activity, "AC001")]
      [(Kind.activity, "AC001"), (Kind.hotel, "HT001")]
      (by decide) (by decide) (by decide) (by decide) (by decide)).2.2.1,
   (total_cost_behavior demoCat demoPrefs demoItin (newSession 0 0)
      [(Kind.hotel, "HT001"), (Kind.activity, "AC001")]
      [(Kind.activity, "AC001"), (Kind.hotel, "HT001")]
      (by decide) (by decide) (by decide) (by decide) (by decide)).2.2.2⟩

/-- Every match produced by the kind scanner is five characters long and
begins with the two pattern letters (up to case). -/
theorem scanAux_shape (p0 p1 : Char) :
    ∀ (fuel : Nat) (l m : List Char), m ∈ scanAux p0 p1 fuel l →
      ∃ c0 c1 c2 c3 c4, m = [c0, c1, c2, c3, c4] ∧ c0.toUpper = p0 ∧ c1.toUpper = p1 := by
  intro fuel
  induction fuel with
  | zero =>
    intro l m h
    simp [scanAux] at h
  | succ n ih =>
    intro l m h
    match l with
    | [] => simp [scanAux] at h
    | c0 :: [] => exact ih [] m h
    | c0 :: [a] => exact ih [a] m h
    | c0 :: [a, b] => exact ih [a, b] m h
    | c0 :: [a, b, c] => exact ih [a, b, c] m h
    | c0 :: a :: b :: c :: d :: rest =>
      rw [show scanAux p0 p1 (n + 1) (c0 :: a :: b :: c :: d :: rest) =
          (if c0.toUpper = p0 ∧ a.toUpper = p1 ∧ b.isDigit ∧ c.isDigit ∧ d.isDigit then
            [c0, a, b, c, d] :: scanAux p0 p1 n rest
          else scanAux p0 p1 n (a :: b :: c :: d :: rest)) from rfl] at h
      by_cases hcond : c0.toUpper = p0 ∧ a.toUpper = p1 ∧ b.isDigit ∧ c.isDigit ∧ d.isDigit
      · rw [if_pos hcond] at h
        rcases List.mem_cons.mp h with rfl | h2
        · exact ⟨c0, a, b, c, d, rfl, hcond.1, hcond.2.1⟩
        · exact ih _ m h2
      · rw [if_neg hcond] at h
        exact ih _ m h

/-- One push either leaves the accumulator alone or appends exactly the
normalized item. -/
theorem pushOne_cases (ty : Kind) (lab : String) (acc : List BookableItem) (m : List Char) :
    pushOne ty lab acc m = acc ∨
      pushOne ty lab acc m =
        acc ++ [{ type := ty, id := normUpper m, label := lab ++ normUpper m }] := by
  by_cases h : (acc.any fun i => i.id == normUpper m) = true
  · exact Or.inl (by simp [pushOne, h])
  · exact Or.inr (by simp [pushOne, h])

/-- Everything in the pushed list either was already there or is a
normalized match of this loop, tagged with this loop's kind. -/
theorem pushItems_mem (ty : Kind) (lab : String) :
    ∀ (ms : List (List Char)) (items : List BookableItem) (i : BookableItem),
      i ∈ pushItems ty lab ms items →
        i ∈ items ∨ (i.type = ty ∧ ∃ m ∈ ms, i.id = normUpper m) := by
  intro ms
  induction ms with
  | nil =>
    intro items i h
    exact Or.inl h
  | cons m ms ih =>
    intro items i h
    have hstep : pushItems ty lab (m :: ms) items =
        pushItems ty lab ms (pushOne ty lab items m) := rfl
    rw [hstep] at h
    rcases ih _ i h with h2 | ⟨hty, m2, hm2, hid⟩
    · rcases pushOne_cases ty lab items m with he | he
      · rw [he] at h2
        exact Or.inl h2
      · rw [he] at h2
        rcases List.mem_append.mp h2 with h3 | h3
        · exact Or.inl h3
        · rw [List.mem_singleton.mp h3]
          exact Or.inr ⟨rfl, m, List.mem_cons_self m ms, rfl⟩
    · exact Or.inr ⟨hty, m2, List.mem_cons_of_mem m hm2, hid⟩

/-- A push leaves an id-disjoint front segment of the accumulator
untouched. -/
theorem pushOne_append (ty : Kind) (lab : String) (items acc : List BookableItem)
    (m : List Char) (h : ∀ i ∈ items, i.id ≠ normUpper m) :
    pushOne ty lab (items ++ acc) m = items ++ pushOne ty lab acc m := by
  have hitems : (items.any fun i => i.id == normUpper m) = false := by
    simp only [List.any_eq_false, beq_iff_eq]
    exact h
  by_cases hacc : (acc.any fun i => i.id == normUpper m) = true
  · simp [pushOne, List.any_append, hitems, hacc]
  · simp [pushOne, List.any_append, hitems, hacc]

/-- A whole push loop leaves an id-disjoint front segment of the
accumulator untouched: the cross-kind duplicate check never fires when
the front segment's ids cannot collide with this loop's matches. -/
theorem pushItems_append (ty : Kind) (lab : String) :
    ∀ (ms : List (List Char)) (items acc : List BookableItem),
      (∀ m ∈ ms, ∀ i ∈ items, i.id ≠ normUpper m) →
      pushItems ty lab ms (items ++ acc) = items ++ pushItems ty lab ms acc := by
  intro ms
  induction ms with
  | nil =>
    intro items acc _
    rfl
  | cons m ms ih =>
    intro items acc h
    have h1 : ∀ i ∈ items, i.id ≠ normUpper m :=
      fun i hi => h m (List.mem_cons_self m ms) i hi
    calc pushItems ty lab (m :: ms) (items ++ acc)
        = pushItems ty lab ms (pushOne ty lab (items ++ acc) m) := rfl
      _ = pushItems ty lab ms (items ++ pushOne ty lab acc m) := by
          rw [pushOne_append ty lab items acc m h1]
      _ = items ++ pushItems ty lab ms (pushOne ty lab acc m) :=
          ih items _ (fun m2 hm2 => h m2 (List.mem_cons_of_mem m hm2))
      _ = items ++ pushItems ty lab (m :: ms) acc := rfl

/-- The ids produced by a push loop are the first-seen deduplication of
the normalized matches, relative to the ids already accumulated. -/
theorem pushItems_map_id (ty : Kind) (lab : String) :
    ∀ (ms : List (List Char)) (acc : List BookableItem),
      (pushItems ty lab ms acc).map (fun i => i.id) =
        (ms.map normUpper).foldl (fun ds x => if x ∈ ds then ds else ds ++ [x])
          (acc.map (fun i => i.id)) := by
  intro ms
  induction ms with
  | nil =>
    intro acc
    rfl
  | cons m ms ih =>
    intro acc
    have hstep : pushItems ty lab (m :: ms) acc =
        pushItems ty lab ms (pushOne ty lab acc m) := rfl
    rw [hstep, ih, List.map_cons, List.foldl_cons]
    congr 1
    by_cases h : (acc.any fun i => i.id == normUpper m) = true
    · have hmem : normUpper m ∈ acc.map (fun i => i.id) := by
        rcases List.any_eq_true.mp h with ⟨i, hi, hbeq⟩
        exact List.mem_map.mpr ⟨i, hi, beq_iff_eq.mp hbeq⟩
      simp [pushOne, h, hmem]
    · have hmem : normUpper m ∉ acc.map (fun i => i.id) := by
        intro hc
        rcases List.mem_map.mp hc with ⟨i, hi, hid⟩
        exact h (List.any_eq_true.mpr ⟨i, hi, beq_iff_eq.mpr hid⟩)
      simp [pushOne, h, hmem]

/-- Every item pushed by the scan of a kind pattern has an id starting
with that pattern's first letter. -/
theorem pushItems_scan_head (p0 p1 : Char) (ty : Kind) (lab : String) (l : List Char)
    (i : BookableItem) (h : i ∈ pushItems ty lab (scanMatches p0 p1 l) []) :
    i.id.data.head? = some p0 := by
  rcases pushItems_mem ty lab _ [] i h with h2 | ⟨_, m, hm, hid⟩
  · simp at h2
  · obtain ⟨c0, c1, c2, c3, c4, rfl, h0, _⟩ :=
      scanAux_shape p0 p1 l.length l m hm
    rw [hid]
    simp only [normUpper, List.map_cons, String.data]
    rw [List.head?_cons, h0]

/-- C5 (amended): `extractBookableItems` returns the pattern matches
grouped by kind in the fixed order flights, hotels, activities — the
cross-kind duplicate check never fires because normalized ids of
different kinds start with different letters — and within each kind the
ids are exactly the normalized (uppercased) matches, deduplicated
preserving first-seen order, all tagged with that kind. -/
theorem extract_items_grouped (t : String) :
    extractBookableItems t =
      pushItems .flight "Flight " (scanMatches 'F' 'L' t.data) []
        ++ pushItems .hotel "Hotel " (scanMatches 'H' 'T' t.data) []
        ++ pushItems .activity "Activity " (scanMatches 'A' 'C' t.data) [] ∧
    (∀ (ty : Kind) (lab : String) (ms : List (List Char)),
      (pushItems ty lab ms []).map (fun i => i.id) = dedupFirstSeen (ms.map normUpper)) ∧
    (∀ (ty : Kind) (lab : String) (ms : List (List Char)) (i : BookableItem),
      i ∈ pushItems ty lab ms [] → i.type = ty) := by
  refine ⟨?_, ?_, ?_⟩
  · have hdisjH : ∀ m ∈ scanMatches 'H' 'T' t.data,
        ∀ i ∈ pushItems Kind.flight "Flight " (scanMatches 'F' 'L' t.data) [],
          i.id ≠ normUpper m := by
      intro m hm i hi heq
      have h1 : i.id.data.head? = some 'F' :=
        pushItems_scan_head 'F' 'L' Kind.flight "Flight " t.data i hi
      obtain ⟨c0, c1, c2, c3, c4, rfl, h0, _⟩ :=
        scanAux_shape 'H' 'T' t.data.length t.data m hm
      rw [heq] at h1
      simp only [normUpper, List.map_cons, String.data, List.head?_cons,
        Option.some.injEq] at h1
      rw [h0] at h1
      exact absurd h1 (by decide)
    have hdisjA : ∀ m ∈ scanMatches 'A' 'C' t.data,
        ∀ i ∈ pushItems Kind.flight "Flight " (scanMatches 'F' 'L' t.data) []
            ++ pushItems Kind.hotel "Hotel " (scanMatches 'H' 'T' t.data) [],
          i.id ≠ normUpper m := by
      intro m hm i hi heq
      obtain ⟨c0, c1, c2, c3, c4, rfl, h0, _⟩ :=
        scanAux_shape 'A' 'C' t.data.length t.data m hm
      have h1 : i.id.data.head? = some 'F' ∨ i.id.data.head? = some 'H' := by
        rcases List.mem_append.mp hi with h2 | h2
        · exact Or.inl (pushItems_scan_head 'F' 'L' Kind.flight "Flight " t.data i h2)
        · exact Or.inr (pushItems_scan_head 'H' 'T' Kind.hotel "Hotel " t.data i h2)
      rw [heq] at h1
      simp only [normUpper, List.map_cons, String.data, List.head?_cons,
        Option.some.injEq] at h1
      rw [h0] at h1
      rcases h1 with h1 | h1 <;> exact absurd h1 (by decide)
    have e1 : pushItems Kind.hotel "Hotel " (scanMatches 'H' 'T' t.data)
        (pushItems Kind.flight "Flight " (scanMatches 'F' 'L' t.data) []) =
        pushItems Kind.flight "Flight " (scanMatches 'F' 'L' t.data) []
          ++ pushItems Kind.hotel "Hotel " (scanMatches 'H' 'T' t.data) [] := by
      have h2 := pushItems_append Kind.hotel "Hotel " (scanMatches 'H' 'T' t.data)
        (pushItems Kind.flight "Flight " (scanMatches 'F' 'L' t.data) []) [] hdisjH
      rwa [List.append_nil] at h2
    have e2 : pushItems Kind.activity "Activity " (scanMatches 'A' 'C' t.data)
        (pushItems Kind.flight "Flight " (scanMatches 'F' 'L' t.data) []
          ++ pushItems Kind.hotel "Hotel " (scanMatches 'H' 'T' t.data) []) =
        (pushItems Kind.flight "Flight " (scanMatches 'F' 'L' t.data) []
          ++ pushItems Kind.hotel "Hotel " (scanMatches 'H' 'T' t.data) [])
          ++ pushItems Kind.activity "Activity " (scanMatches 'A' 'C' t.data) [] := by
      have h2 := pushItems_append Kind.activity "Activity " (scanMatches 'A' 'C' t.data)
        (pushItems Kind.flight "Flight " (scanMatches 'F' 'L' t.data) []
          ++ pushItems Kind.hotel "Hotel " (scanMatches 'H' 'T' t.data) []) [] hdisjA
      rwa [List.append_nil] at h2
    have e0 : extractBookableItems t =
        pushItems Kind.activity "Activity " (scanMatches 'A' 'C' t.data)
          (pushItems Kind.hotel "Hotel " (scanMatches 'H' 'T' t.data)
            (pushItems Kind.flight "Flight " (scanMatches 'F' 'L' t.data) [])) := rfl
    rw [e0, e1, e2, List.append_assoc]
  · intro ty lab ms
    rw [pushItems_map_id]
    rfl
  · intro ty lab ms i h
    rcases pushItems_mem ty lab ms [] i h with h2 | ⟨hty, _⟩
    · simp at h2
    · exact hty

/-- Counterexample for C5 as stated: on the text "HT001 FL001" the claim's
first-seen order would put the hotel id first, but `extractBookableItems`
emits the flight group first. -/
theorem extract_order_counterexample :
    (extractBookableItems "HT001 FL001").map (fun i => (i.type, i.id)) ≠
      specExtractIds "HT001 FL001" := by
  decide

/-- Witness for the amended C5 at a concrete text: the grouped shape on
"HT001 FL001", and the kind tag of a concretely pushed flight item. -/
theorem extract_items_grouped_witness :
    extractBookableItems "HT001 FL001" =
      pushItems .flight "Flight " (scanMatches 'F' 'L' "HT001 FL001".data) []
        ++ pushItems .hotel "Hotel " (scanMatches 'H' 'T' "HT001 FL001".data) []
        ++ pushItems .activity "Activity " (scanMatches 'A' 'C' "HT001 FL001".data) [] ∧
    (pushItems .flight "Flight " [['f', 'l', '0', '0', '1']] []).map
        (fun i => i.id) = dedupFirstSeen ([['f', 'l', '0', '0', '1']].map normUpper) ∧
    ({ type := Kind.flight, id := "FL001", label := "Flight FL001" } : BookableItem).type
      = Kind.flight :=
  ⟨(extract_items_grouped "HT001 FL001").1,
   (extract_items_grouped "HT001 FL001").2.1 Kind.flight "Flight " [['f', 'l', '0', '0', '1']],
   (extract_items_grouped "HT001 FL001").2.2 Kind.flight "Flight "
     [['f', 'l', '0', '0', '1']] _ (by decide)⟩

/-- C10: the client exposes no dedicated confirm endpoint — no route of
the whole client API surface contains "confirm" — and in both frontends
confirmation is performed by first posting the customer info and then
sending the literal chat message "Please confirm my booking" on the same
session; the resulting booking id is read from the chat response's
booking_id field (empty or null leaves the stored id unchanged). -/
theorem client_confirm_flow (sid email : String) (name phone : Option String)
    (email2 name2 phone2 : String) (resp : ClientChatResponse) (old : Option String)
    (bid : String) (r : ClientRequest)
    (hemail : email2 ≠ "") :
    charsContain "confirm".data (ClientRequest.routeName r).data = false ∧
    (handleConfirmRequests sid email name phone).head? =
      some (.customerInfo sid email name phone) ∧
    (handleConfirmRequests sid email name phone)[1]? =
      some (.chat "Please confirm my booking" (some sid)) ∧
    (submitBookingRequests sid email2 name2 phone2).head? =
      some (.customerInfo sid email2 (if name2 = "" then none else some name2)
        (if phone2 = "" then none else some phone2)) ∧
    (submitBookingRequests sid email2 name2 phone2)[1]? =
      some (.chat "Please confirm my booking" (some sid)) ∧
    (resp.bookingId = some bid → bid ≠ "" → updatedBookingId resp old = some bid) := by
  refine ⟨?_, rfl, rfl, ?_, ?_, ?_⟩
  · cases r <;> rfl
  · simp [submitBookingRequests, hemail]
  · simp [submitBookingRequests, hemail]
  · intro h1 h2
    simp [updatedBookingId, h1, h2]

/-- Witness for C10 at concrete inputs: the confirmation flow of both
frontends on a concrete session, and a concrete chat response carrying
the booking id. -/
theorem client_confirm_flow_witness :
    charsContain "confirm".data
        (ClientRequest.routeName (.customerInfo "s1" "a@b.c" none none)).data = false ∧
    (handleConfirmRequests "s1" "a@b.c" none none).head? =
      some (.customerInfo "s1" "a@b.c" none none) ∧
    (handleConfirmRequests "s1" "a@b.c" none none)[1]? =
      some (.chat "Please confirm my booking" (some "s1")) ∧
    (submitBookingRequests "s1" "a@b.c" "" "").head? =
      some (.customerInfo "s1" "a@b.c" (if ("" : String) = "" then none else some "")
        (if ("" : String) = "" then none else some "")) ∧
    (submitBookingRequests "s1" "a@b.c" "" "")[1]? =
      some (.chat "Please confirm my booking" (some "s1")) ∧
    updatedBookingId
        { sessionId := "s1", response := "done", intent := "confirm_booking",
          itinSummary := "", confirmed := true, bookingId := some "BK42" } none =
      some "BK42" := by
  have h := client_confirm_flow "s1" "a@b.c" none none "a@b.c" "" "" 
    { sessionId := "s1", response := "done", intent := "confirm_booking",
      itinSummary := "", confirmed := true, bookingId := some "BK42" } none "BK42"
    (.customerInfo "s1" "a@b.c" none none) (by decide)
  exact ⟨h.1, h.2.1, h.2.2.1, h.2.2.2.1, h.2.2.2.2.1, h.2.2.2.2.2 rfl (by decide)⟩
